import Mathlib

/-!
Verification of the prompt-assembly and service-client logic of the
"mika" repository (src/services/geminiService.ts, src/App.tsx).

The TypeScript source is shallowly embedded: pure string/list
manipulation becomes Lean functions, the external network calls
(`ai.models.generateContent`, `JSON.parse`, `setTimeout`) become
explicit function parameters or attempt-indexed outcome streams, and
thrown exceptions become `Except`.
-/

namespace Mika

/-- `EntityProfile.type` tag and the subject-type tag of
`analyzeImageForTraining` ('PERSON' | 'PRODUCT'). -/
inductive SubjectType
  | PERSON
  | PRODUCT
deriving DecidableEq

/-- `GenerationMode` from src/types (USER_ONLY | PRODUCT_ONLY | COMBINED). -/
inductive GenerationMode
  | USER_ONLY
  | PRODUCT_ONLY
  | COMBINED
deriving DecidableEq

/-- `EntityProfile` from src/types: id, name, description, ordered
base64 image list, and a PERSON/PRODUCT tag. -/
structure EntityProfile where
  id : String
  name : String
  description : String
  images : List String
  type : SubjectType
deriving DecidableEq

/-- The base64-cleaning idiom used throughout geminiService.ts:
`raw.includes(',') ? raw.split(',')[1] : raw`  (strips a data-URI
prefix; yields the piece between the first and second comma, which may
be empty).  Split on the comma character at the char-list level, which
coincides with the JS single-character `split`. -/
def stripDataUri (raw : String) : String :=
  if ',' ∈ raw.data then String.mk (((raw.data.splitOn ',').get? 1).getD [])
  else raw

/-- The user reference line appended in `generateBrandVisual` when the
user image is attached. -/
def userRefLine : String :=
  "[REF_1] is the Main Subject. Maintain their likeness accurately.\n"

/-- The product reference line appended in `generateBrandVisual`:
`[REF_${refIdx}] is Product: ${product.name}. Maintain its look.\n`. -/
def productLine (refIdx : Nat) (name : String) : String :=
  "[REF_" ++ toString refIdx ++ "] is Product: " ++ name ++ ". Maintain its look.\n"

/-- Step 1 of `generateBrandVisual`: the user-reference image part and
instruction line.  Mirrors
`if ((mode === USER_ONLY || mode === COMBINED) && user && user.images.length > 0)`
followed by the truthiness check on the cleaned base64 payload.
Returns (pushed image parts, appended instruction lines). -/
def userEntry (mode : GenerationMode) (user : Option EntityProfile) :
    List String × List String :=
  match user with
  | none => ([], [])
  | some u =>
    if (mode = GenerationMode.USER_ONLY ∨ mode = GenerationMode.COMBINED)
        ∧ 0 < u.images.length then
      let base64User := stripDataUri (u.images.headD "")
      if base64User ≠ "" then ([base64User], [userRefLine]) else ([], [])
    else ([], [])

/-- `hasUser` as computed inside the product loop of
`generateBrandVisual`:
`(mode === COMBINED) && user && user.images.length > 0`. -/
def hasUserRef (mode : GenerationMode) (user : Option EntityProfile) : Bool :=
  match mode, user with
  | GenerationMode.COMBINED, some u => decide (0 < u.images.length)
  | _, _ => false

/-- One iteration of the `products.forEach((product, index) => ...)`
loop in `generateBrandVisual`: attach the product's first image (when
present and its cleaned payload is non-empty) and append the reference
line with `refIdx = hasUser ? index + 2 : index + 1`. -/
def productEntry (hasUser : Bool) (index : Nat) (p : EntityProfile) :
    List String × List String :=
  if 0 < p.images.length then
    let base64Prod := stripDataUri (p.images.headD "")
    if base64Prod ≠ "" then
      ([base64Prod], [productLine (if hasUser then index + 2 else index + 1) p.name])
    else ([], [])
  else ([], [])

/-- The whole `products.forEach` loop, accumulating image parts and
instruction lines in order, with the running JS array index. -/
def productLoop (hasUser : Bool) (index : Nat) :
    List EntityProfile → List String × List String
  | [] => ([], [])
  | p :: ps =>
    let e := productEntry hasUser index p
    let rest := productLoop hasUser (index + 1) ps
    (e.1 ++ rest.1, e.2 ++ rest.2)

/-- The request assembled by `performGeneration` inside
`generateBrandVisual`, before the network call: the ordered image
parts, the reference-label instruction lines appended while attaching
them, and the remaining instruction chunks (task, optional style
preference, requirements).  The consolidated trailing text block of
the request is the concatenation `refLines ++ tailChunks`
(see `textInstructions`), and the parts array is
`imageParts ++ [text]`. -/
structure AssembledRequest where
  imageParts : List String
  refLines : List String
  tailChunks : List String
deriving DecidableEq

/-- The prompt-assembly core of `generateBrandVisual`
(src/services/geminiService.ts): steps 1-5 of the algorithm, producing
the image parts and the consolidated instruction text chunks. -/
def generateParts (userPrompt : String) (mode : GenerationMode)
    (user : Option EntityProfile) (products : List EntityProfile)
    (likedPrompts : List String) : AssembledRequest :=
  let u := userEntry mode user
  let prods :=
    if (mode = GenerationMode.PRODUCT_ONLY ∨ mode = GenerationMode.COMBINED)
        ∧ 0 < products.length then
      productLoop (hasUserRef mode user) 0 products
    else ([], [])
  let styleChunks :=
    if 0 < likedPrompts.length then
      ["STYLE PREFERENCE: " ++ likedPrompts.headD "" ++ ".\n"]
    else []
  { imageParts := u.1 ++ prods.1
    refLines := u.2 ++ prods.2
    tailChunks :=
      ["\nTASK: Generate a high-quality photograph based on: \"" ++ userPrompt ++ "\"\n"]
        ++ styleChunks
        ++ ["REQUIREMENTS: Photorealistic, 8k resolution, cinematic lighting. Seamlessly integrate the references provided."] }

/-- The single consolidated text part placed after all image parts
(`textInstructions` accumulated by `+=` in the source). -/
def textInstructions (r : AssembledRequest) : String :=
  String.join (r.refLines ++ r.tailChunks)

/-!
## The retry wrapper `retryOperation`

The asynchronous operation is embedded as an attempt-indexed outcome
stream `op : Nat → Except ε α` (attempt `i` is the `i`-th invocation,
counting from the given `attempt` base).  The embedding returns the
final outcome, the number of invocations performed, and the list of
`setTimeout` delays (in ms) awaited between consecutive attempts.
-/

/-- `retryOperation` from src/services/geminiService.ts: invoke the
operation; on failure, if retries remain, wait 2000 ms and recurse
with the budget decremented; otherwise rethrow the last error. -/
def retryOperation (op : Nat → Except ε α) (retries attempt : Nat) :
    Except ε α × Nat × List Nat :=
  match op attempt with
  | Except.ok a => (Except.ok a, 1, [])
  | Except.error e =>
    match retries with
    | 0 => (Except.error e, 1, [])
    | r + 1 =>
      let rest := retryOperation op r (attempt + 1)
      (rest.1, rest.2.1 + 1, 2000 :: rest.2.2)

/-- The default retry budget (`retries = 2` in the source). -/
def defaultRetries : Nat := 2

/-- `retryOperation` as called with the default budget. -/
def retryOperationDefault (op : Nat → Except ε α) : Except ε α × Nat × List Nat :=
  retryOperation op defaultRetries 0

/-!
## Response model and result extraction of `generateBrandVisual`
-/

/-- A content part of a generation response: an optional inline image
payload (`inlineData.data`) and an optional text field. -/
structure Part where
  inlineData : Option String
  text : Option String
deriving DecidableEq

/-- A response candidate (`candidates[i].content.parts`). -/
structure Candidate where
  content : Option (List Part)
deriving DecidableEq

/-- A generation response (`response.candidates`). -/
structure GenResponse where
  candidates : Option (List Candidate)
deriving DecidableEq

/-- JS truthiness of `part.text` (undefined and the empty string are
falsy), as used by `parts.find(p => p.text)`. -/
def textTruthy (t : Option String) : Bool :=
  match t with
  | some s => s ≠ ""
  | none => false

/-- The parts list reached by `candidates && candidates[0]?.content?.parts`
(and by `candidates?.[0]?.content?.parts`): `none` when any link of the
optional chain is absent. -/
def firstParts (resp : GenResponse) : Option (List Part) :=
  match resp.candidates with
  | none => none
  | some cs =>
    match cs.head? with
    | none => none
    | some c => c.content

/-- The fallthrough of the extraction code once no inline image part
was found: find the first part with truthy text and throw the
refusal error embedding it, else throw the generic error. -/
def noImageResult (parts : List Part) : Except String String :=
  match parts.find? (fun p => textTruthy p.text) with
  | some p => Except.error ("Model refused image generation: " ++ p.text.getD "")
  | none => Except.error "No image generated. Please try a different prompt."

/-- The result-extraction tail of `performGeneration`: scan the first
candidate's parts for an inline image payload and return it as a PNG
data URI; otherwise fail via `noImageResult`. -/
def extractImage (resp : GenResponse) : Except String String :=
  match firstParts resp with
  | some parts =>
    match parts.find? (fun p => p.inlineData.isSome) with
    | some p => Except.ok ("data:image/png;base64," ++ p.inlineData.getD "")
    | none => noImageResult parts
  | none => noImageResult []

/-- `generateBrandVisual`: assemble the request, then wrap the whole
network-plus-extraction operation (`performGeneration`) in
`retryOperation` with a budget of 2 retries.  The network is embedded
as a function `net` from the assembled request and the attempt number
to the response. -/
def generateBrandVisual (userPrompt : String) (mode : GenerationMode)
    (user : Option EntityProfile) (products : List EntityProfile)
    (likedPrompts : List String)
    (net : AssembledRequest → Nat → GenResponse) :
    Except String String × Nat × List Nat :=
  retryOperation
    (fun i => extractImage (net (generateParts userPrompt mode user products likedPrompts) i))
    2 0

/-!
## `analyzeImageForTraining`

The single network call is embedded as a parameter from the assembled
request to either a thrown error or the optional `response.text`.
-/

/-- The PERSON analysis prompt literal. -/
def personPrompt : String :=
  "As a professional portrait photographer, analyze these photos. Describe the subject's physical appearance in high detail for a casting sheet. Cover: face shape, eye color/shape, hair style/color, skin tone, and key facial features. Keep it objective and precise. Do NOT describe clothing."

/-- The PRODUCT analysis prompt literal. -/
def productPrompt : String :=
  "As a professional product photographer, analyze these photos. Create a visual specification for a 3D render. Describe: shape, geometry, material finish (matte/glossy), colors, and text/logos. Focus purely on the physical object."

/-- The analysis request: image parts and the instructional prompt. -/
structure AnalyzeRequest where
  parts : List String
  prompt : String
deriving DecidableEq

/-- Request assembly of `analyzeImageForTraining`: take up to 5 images
(`base64Images.slice(0, 5)`), clean each payload, and pick the
subject-type-specific prompt. -/
def analyzeRequest (base64Images : List String) (subjectType : SubjectType) :
    AnalyzeRequest :=
  { parts := (base64Images.take 5).map stripDataUri
    prompt :=
      match subjectType with
      | SubjectType.PERSON => personPrompt
      | SubjectType.PRODUCT => productPrompt }

/-- `analyzeImageForTraining`: issue the single analysis request and
return `response.text || "No description generated."`; a failure is
logged and rethrown (not retried). -/
def analyzeImageForTraining (base64Images : List String)
    (subjectType : SubjectType)
    (call : AnalyzeRequest → Except String (Option String)) :
    Except String String :=
  match call (analyzeRequest base64Images subjectType) with
  | Except.error e => Except.error e
  | Except.ok t =>
    match t with
    | none => Except.ok "No description generated."
    | some s => Except.ok (if s = "" then "No description generated." else s)

/-!
## `refinePrompt`
-/

/-- The refinement instruction literal, embedding the rough idea and
the optional context (`${context ? `Context: ...` : ''}` uses JS
truthiness, so an empty context string contributes nothing). -/
def refineInstruction (roughIdea : String) (context : Option String) : String :=
  "You are an expert AI art prompter. \n      Refine this rough idea into a highly detailed, creative image generation prompt.\n      Rough idea: \"" ++ roughIdea ++ "\"\n      " ++
    (match context with
     | some c => if c = "" then "" else "Context: " ++ c
     | none => "") ++
    "\n      \n      Requirements:\n      - Focus on lighting, composition, camera angle, and mood.\n      - Keep it under 60 words.\n      - Output ONLY the refined prompt text, no explanations."

/-- `refinePrompt`: one text-generation call; return
`response.text || roughIdea`, and return `roughIdea` on any thrown
failure (the catch block never rethrows). -/
def refinePrompt (roughIdea : String) (context : Option String)
    (call : String → Except String (Option String)) : String :=
  match call (refineInstruction roughIdea context) with
  | Except.error _ => roughIdea
  | Except.ok none => roughIdea
  | Except.ok (some t) => if t = "" then roughIdea else t

/-!
## `suggestPrompts`

`JSON.parse` is external; it is embedded as a parameter
`parse : String → Except String JsValue`, where `JsValue` records
whether the parsed JSON is an array of strings or some other
well-formed JSON value (which the source returns as-is despite the
declared `string[]` type).
-/

/-- Outcome of `JSON.parse` on well-formed JSON: either an array of
strings or some other JSON value. -/
inductive JsValue
  | arr : List String → JsValue
  | other : String → JsValue
deriving DecidableEq

/-- The fallback suggestion list of the catch block. -/
def fallbackSuggestions : List String :=
  ["Studio shot with dramatic lighting", "Lifestyle outdoors in sunlight", "Close-up product focus with bokeh"]

/-- The suggestion instruction literal, embedding the two descriptions
truncated to their first 100 characters (`substring(0, 100)`). -/
def suggestInstruction (userDesc productDesc : String) : String :=
  "Given a person described as: \"" ++ userDesc.take 100 ++ "...\" \n      and a product described as: \"" ++ productDesc.take 100 ++ "...\",\n      generate 3 creative, distinct marketing prompt ideas.\n      Return as a JSON array of strings."

/-- `suggestPrompts`: one structured-output call.  A thrown call or a
`JSON.parse` failure is caught and yields the fallback list; absent or
empty response text returns the empty array (`if (!text) return []`);
otherwise the parsed JSON value is returned as-is. -/
def suggestPrompts (userDesc productDesc : String)
    (call : String → Except String (Option String))
    (parse : String → Except String JsValue) : JsValue :=
  match call (suggestInstruction userDesc productDesc) with
  | Except.error _ => JsValue.arr fallbackSuggestions
  | Except.ok none => JsValue.arr []
  | Except.ok (some t) =>
    if t = "" then JsValue.arr []
    else
      match parse t with
      | Except.error _ => JsValue.arr fallbackSuggestions
      | Except.ok v => v

/-!
## `handleFeedback` (src/App.tsx)
-/

/-- The feedback tag ('like' | 'dislike'). -/
inductive Feedback
  | like
  | dislike
deriving DecidableEq

/-- `GeneratedImage` from src/types. -/
structure GeneratedImage where
  id : String
  url : String
  prompt : String
  mode : GenerationMode
  productId : Option String
  timestamp : Nat
  feedback : Option Feedback
deriving DecidableEq

/-- The slice of `AppState` read and written by `handleFeedback`. -/
structure FeedState where
  gallery : List GeneratedImage
  likedPrompts : List String
deriving DecidableEq

/-- `handleFeedback` from src/App.tsx: find the gallery image by id
(no-op when absent); set its feedback field in the gallery; on a like,
append its prompt to `likedPrompts` unless already present; on a
dislike, remove every occurrence of its prompt. -/
def handleFeedback (st : FeedState) (id : String) (ty : Feedback) : FeedState :=
  match st.gallery.find? (fun g => g.id == id) with
  | none => st
  | some targetImg =>
    let updatedImg := { targetImg with feedback := some ty }
    let newLikedPrompts :=
      if ty = Feedback.like ∧ targetImg.prompt ∉ st.likedPrompts then
        st.likedPrompts ++ [targetImg.prompt]
      else if ty = Feedback.dislike then
        st.likedPrompts.filter (fun p => p != targetImg.prompt)
      else st.likedPrompts
    { gallery := st.gallery.map (fun g => if g.id == id then updatedImg else g)
      likedPrompts := newLikedPrompts }

/-!
## Helper lemmas about `retryOperation`
-/

lemma retryOperation_of_ok (op : Nat → Except ε α) (r a : Nat) (v : α)
    (h : op a = Except.ok v) : retryOperation op r a = (Except.ok v, 1, []) := by
  rw [retryOperation, h]

lemma retryOperation_zero_of_error (op : Nat → Except ε α) (a : Nat) (e : ε)
    (h : op a = Except.error e) :
    retryOperation op 0 a = (Except.error e, 1, []) := by
  rw [retryOperation, h]

lemma retryOperation_succ_of_error (op : Nat → Except ε α) (r a : Nat) (e : ε)
    (h : op a = Except.error e) :
    retryOperation op (r + 1) a
      = ((retryOperation op r (a + 1)).1,
         (retryOperation op r (a + 1)).2.1 + 1,
         2000 :: (retryOperation op r (a + 1)).2.2) := by
  rw [retryOperation, h]

lemma retryOperation_calls_le (op : Nat → Except ε α) :
    ∀ r a, (retryOperation op r a).2.1 ≤ r + 1 := by
  intro r
  induction r with
  | zero =>
    intro a
    cases h : op a
    · simp [retryOperation_zero_of_error op a _ h]
    · simp [retryOperation_of_ok op 0 a _ h]
  | succ r ih =>
    intro a
    cases h : op a
    · rw [retryOperation_succ_of_error op r a _ h]
      have := ih (a + 1)
      simpa using Nat.succ_le_succ this
    · simp [retryOperation_of_ok op (r + 1) a _ h]

lemma retryOperation_first_ok (op : Nat → Except ε α) :
    ∀ i r a v, i ≤ r →
      (∀ j, j < i → ∃ e, op (a + j) = Except.error e) →
      op (a + i) = Except.ok v →
      retryOperation op r a = (Except.ok v, i + 1, List.replicate i 2000) := by
  intro i
  induction i with
  | zero =>
    intro r a v _ _ hok
    simpa using retryOperation_of_ok op r a v (by simpa using hok)
  | succ i ih =>
    intro r a v hir hfail hok
    obtain ⟨r', rfl⟩ : ∃ r', r = r' + 1 :=
      ⟨r - 1, by omega⟩
    obtain ⟨e, he⟩ := hfail 0 (Nat.succ_pos i)
    rw [retryOperation_succ_of_error op r' a e (by simpa using he)]
    have hrec := ih r' (a + 1) v (by omega)
      (fun j hj => by
        obtain ⟨e', he'⟩ := hfail (j + 1) (by omega)
        exact ⟨e', by simpa [Nat.add_assoc, Nat.add_comm 1 j] using he'⟩)
      (by simpa [Nat.add_assoc, Nat.add_comm 1 i] using hok)
    rw [hrec]
    simp [List.replicate_succ]

lemma retryOperation_all_fail (op : Nat → Except ε α) :
    ∀ r a e, (∀ j, j < r → ∃ ej, op (a + j) = Except.error ej) →
      op (a + r) = Except.error e →
      retryOperation op r a = (Except.error e, r + 1, List.replicate r 2000) := by
  intro r
  induction r with
  | zero =>
    intro a e _ hlast
    simpa using retryOperation_zero_of_error op a e (by simpa using hlast)
  | succ r ih =>
    intro a e hfail hlast
    obtain ⟨e0, he0⟩ := hfail 0 (Nat.succ_pos r)
    rw [retryOperation_succ_of_error op r a e0 (by simpa using he0)]
    have hrec := ih (a + 1) e
      (fun j hj => by
        obtain ⟨ej, hej⟩ := hfail (j + 1) (by omega)
        exact ⟨ej, by simpa [Nat.add_assoc, Nat.add_comm 1 j] using hej⟩)
      (by simpa [Nat.add_assoc, Nat.add_comm 1 r] using hlast)
    rw [hrec]
    simp [List.replicate_succ]

/-- Claim C3: for every retry budget `r ≥ 0` and every operation,
`retryOperation` calls the operation at most `r + 1` times; if the
first success is at attempt `i ≤ r` (0-indexed, so at most the
`(r+1)`-th call), its result is returned after exactly `i + 1` calls
with a 2000 ms delay between consecutive attempts; if all `r + 1`
attempts fail, the error of the last attempt is thrown after exactly
`r + 1` calls and `r` delays of 2000 ms; and the default budget is 2. -/
theorem retryOperation_spec {ε α : Type} (op : Nat → Except ε α) (r : Nat) :
    (retryOperation op r 0).2.1 ≤ r + 1
    ∧ (∀ i v, i ≤ r → (∀ j, j < i → ∃ e, op j = Except.error e) →
        op i = Except.ok v →
        retryOperation op r 0 = (Except.ok v, i + 1, List.replicate i 2000))
    ∧ (∀ e, (∀ j, j < r → ∃ ej, op j = Except.error ej) →
        op r = Except.error e →
        retryOperation op r 0 = (Except.error e, r + 1, List.replicate r 2000))
    ∧ retryOperationDefault op = retryOperation op 2 0 := by
  refine ⟨retryOperation_calls_le op r 0, ?_, ?_, rfl⟩
  · intro i v hir hfail hok
    exact retryOperation_first_ok op i r 0 v hir
      (fun j hj => by simpa using hfail j hj) (by simpa using hok)
  · intro e hfail hlast
    exact retryOperation_all_fail op r 0 e
      (fun j hj => by simpa using hfail j hj) (by simpa using hlast)

/-- Witness for C3 at a concrete operation: attempt 0 fails, attempt 1
succeeds, budget 2 — two calls, one 2000 ms delay, result returned. -/
theorem retryOperation_spec_witness :
    retryOperation (fun j => if j = 1 then Except.ok 7 else Except.error "boom") 2 0
      = (Except.ok 7, 2, [2000]) := by
  have h := (retryOperation_spec (fun j => if j = 1 then Except.ok 7 else Except.error "boom") 2).2.1
    1 7 (by decide)
    (by
      intro j hj
      refine ⟨"boom", ?_⟩
      have hj0 : j = 0 := by omega
      subst hj0
      rfl)
    rfl
  simpa using h

/-- Claim C4: result extraction of `generateBrandVisual` — the first
inline image part of the first candidate is returned as exactly
`data:image/png;base64,` followed by its payload; with no inline image
part but a (truthy) text part, the thrown error embeds that text
verbatim, and it is distinct from the generic error; with neither, the
generic no-image error is thrown; and the whole
request-plus-extraction operation is wrapped by `retryOperation` with
a budget of 2 retries. -/
theorem extractImage_spec :
    (∀ resp parts, firstParts resp = some parts →
      (∀ p d, parts.find? (fun q => q.inlineData.isSome) = some p →
        p.inlineData = some d →
        extractImage resp = Except.ok ("data:image/png;base64," ++ d))
      ∧ (parts.find? (fun q => q.inlineData.isSome) = none →
        (∀ p t, parts.find? (fun q => textTruthy q.text) = some p →
          p.text = some t →
          extractImage resp = Except.error ("Model refused image generation: " ++ t))
        ∧ (parts.find? (fun q => textTruthy q.text) = none →
          extractImage resp
            = Except.error "No image generated. Please try a different prompt.")))
    ∧ (∀ resp, firstParts resp = none →
        extractImage resp
          = Except.error "No image generated. Please try a different prompt.")
    ∧ (∀ t, ("Model refused image generation: " ++ t)
          ≠ "No image generated. Please try a different prompt.")
    ∧ (∀ userPrompt mode user products likedPrompts net,
        generateBrandVisual userPrompt mode user products likedPrompts net
          = retryOperation
              (fun i =>
                extractImage (net (generateParts userPrompt mode user products likedPrompts) i))
              2 0) := by
  refine ⟨?_, ?_, ?_, fun _ _ _ _ _ _ => rfl⟩
  · intro resp parts hfp
    constructor
    · intro p d hfind hdata
      simp [extractImage, hfp, hfind, hdata]
    · intro hnone
      constructor
      · intro p t hfind htext
        simp [extractImage, hfp, hnone, noImageResult, hfind, htext]
      · intro hfind
        simp [extractImage, hfp, hnone, noImageResult, hfind]
  · intro resp hfp
    simp [extractImage, hfp, noImageResult]
  · intro t h
    obtain ⟨l⟩ := t
    rw [String.ext_iff] at h
    simp [String.data_append] at h

/-- Witness for C4 at a concrete response: first candidate holds a
text part then an inline image part; extraction returns the data URI
of the image payload. -/
theorem extractImage_spec_witness :
    extractImage
        ⟨some [⟨some [⟨none, some "warming up"⟩, ⟨some "QUJD", none⟩]⟩]⟩
      = Except.ok "data:image/png;base64,QUJD" := by
  have h := (extractImage_spec.1
      ⟨some [⟨some [⟨none, some "warming up"⟩, ⟨some "QUJD", none⟩]⟩]⟩
      [⟨none, some "warming up"⟩, ⟨some "QUJD", none⟩] rfl).1
      ⟨some "QUJD", none⟩ "QUJD" (by decide) rfl
  simpa using h

/-- Claim C9: `analyzeImageForTraining` attaches at most the first 5
supplied images to its single request, picks the instructional prompt
by the subject-type tag, returns the service's free text or the
literal fallback when that text is absent or empty, and propagates
failures unretried. -/
theorem analyzeImageForTraining_spec :
    (∀ imgs st, (analyzeRequest imgs st).parts.length ≤ 5
      ∧ (analyzeRequest imgs st).parts = (imgs.take 5).map stripDataUri)
    ∧ (∀ imgs, (analyzeRequest imgs SubjectType.PERSON).prompt = personPrompt
      ∧ (analyzeRequest imgs SubjectType.PRODUCT).prompt = productPrompt)
    ∧ (∀ imgs st call s, s ≠ "" →
        call (analyzeRequest imgs st) = Except.ok (some s) →
        analyzeImageForTraining imgs st call = Except.ok s)
    ∧ (∀ imgs st call,
        (call (analyzeRequest imgs st) = Except.ok none →
          analyzeImageForTraining imgs st call = Except.ok "No description generated.")
        ∧ (call (analyzeRequest imgs st) = Except.ok (some "") →
          analyzeImageForTraining imgs st call = Except.ok "No description generated."))
    ∧ (∀ imgs st call e, call (analyzeRequest imgs st) = Except.error e →
        analyzeImageForTraining imgs st call = Except.error e) := by
  refine ⟨?_, fun _ => ⟨rfl, rfl⟩, ?_, ?_, ?_⟩
  · intro imgs st
    refine ⟨?_, rfl⟩
    calc (analyzeRequest imgs st).parts.length
        = (imgs.take 5).length := by simp [analyzeRequest]
      _ ≤ 5 := by simp
  · intro imgs st call s hs hcall
    simp [analyzeImageForTraining, hcall, hs]
  · intro imgs st call
    constructor
    · intro hcall
      simp [analyzeImageForTraining, hcall]
    · intro hcall
      simp [analyzeImageForTraining, hcall]
  · intro imgs st call e hcall
    simp [analyzeImageForTraining, hcall]

/-- Witness for C9 at a concrete input: seven images are supplied, five
are attached (data-URI prefixes stripped), the PERSON prompt is chosen,
and a non-empty service text is returned unchanged. -/
theorem analyzeImageForTraining_spec_witness :
    (analyzeRequest ["a", "b,c", "d", "e", "f", "g", "h"] SubjectType.PERSON).parts
        = ["a", "c", "d", "e", "f"]
    ∧ (analyzeRequest ["a", "b,c", "d", "e", "f", "g", "h"] SubjectType.PERSON).prompt
        = personPrompt
    ∧ analyzeImageForTraining ["a", "b,c", "d", "e", "f", "g", "h"] SubjectType.PERSON
        (fun _ => Except.ok (some "a face")) = Except.ok "a face" := by
  refine ⟨?_, (analyzeImageForTraining_spec.2.1 ["a", "b,c", "d", "e", "f", "g", "h"]).1, ?_⟩
  · have h := (analyzeImageForTraining_spec.1 ["a", "b,c", "d", "e", "f", "g", "h"]
      SubjectType.PERSON).2
    rw [h]
    decide
  · exact analyzeImageForTraining_spec.2.2.1 ["a", "b,c", "d", "e", "f", "g", "h"]
      SubjectType.PERSON (fun _ => Except.ok (some "a face")) "a face" (by decide) rfl

/-- Claim C8: `refinePrompt` returns the original rough idea unmodified
whenever the underlying call fails or returns absent or empty text; it
is a total function of the call outcome, so it never throws. -/
theorem refinePrompt_spec :
    (∀ rough ctx call e, call (refineInstruction rough ctx) = Except.error e →
      refinePrompt rough ctx call = rough)
    ∧ (∀ rough ctx call, call (refineInstruction rough ctx) = Except.ok none →
      refinePrompt rough ctx call = rough)
    ∧ (∀ rough ctx call, call (refineInstruction rough ctx) = Except.ok (some "") →
      refinePrompt rough ctx call = rough)
    ∧ (∀ rough ctx call t, t ≠ "" →
        call (refineInstruction rough ctx) = Except.ok (some t) →
        refinePrompt rough ctx call = t) := by
  refine ⟨?_, ?_, ?_, ?_⟩
  · intro rough ctx call e h
    simp [refinePrompt, h]
  · intro rough ctx call h
    simp [refinePrompt, h]
  · intro rough ctx call h
    simp [refinePrompt, h]
  · intro rough ctx call t ht h
    simp [refinePrompt, h, ht]

/-- Witness for C8 at a concrete input: the call throws and the rough
idea comes back unmodified. -/
theorem refinePrompt_spec_witness :
    refinePrompt "eating lunch on mars" (some "Subject: Alex.")
        (fun _ => Except.error "503") = "eating lunch on mars" :=
  refinePrompt_spec.1 "eating lunch on mars" (some "Subject: Alex.")
    (fun _ => Except.error "503") "503" rfl

/-- Claim C5 (counterexample): structured output that is well-formed
JSON but not an array — here the service returns the text "5", which
`JSON.parse` accepts as the non-array value 5 — is NOT replaced by the
three-item fallback list; `suggestPrompts` returns the parsed value
as-is. -/
theorem suggestPrompts_nonarray_cex :
    suggestPrompts "u" "p" (fun _ => Except.ok (some "5"))
        (fun _ => Except.ok (JsValue.other "5"))
      = JsValue.other "5"
    ∧ suggestPrompts "u" "p" (fun _ => Except.ok (some "5"))
        (fun _ => Except.ok (JsValue.other "5"))
      ≠ JsValue.arr fallbackSuggestions := by
  exact ⟨rfl, by decide⟩

/-- Claim C5 (amended): only the first 100 characters of either
description influence the request; the function is total (never
throws); a thrown service call yields the fallback three-item list, as
does a `JSON.parse` failure on non-empty text; absent or empty
response text yields the empty list; and successfully parsed JSON is
returned as-is (even when it is not an array). -/
theorem suggestPrompts_spec :
    (∀ u u' p p' call parse, String.mk (u.data.take 100) = String.mk (u'.data.take 100) →
      String.mk (p.data.take 100) = String.mk (p'.data.take 100) →
      suggestPrompts u p call parse = suggestPrompts u' p' call parse)
    ∧ (∀ u p call parse e, call (suggestInstruction u p) = Except.error e →
        suggestPrompts u p call parse = JsValue.arr fallbackSuggestions)
    ∧ (∀ u p call parse t e, t ≠ "" → call (suggestInstruction u p) = Except.ok (some t) →
        parse t = Except.error e →
        suggestPrompts u p call parse = JsValue.arr fallbackSuggestions)
    ∧ (∀ u p call parse, call (suggestInstruction u p) = Except.ok none →
        suggestPrompts u p call parse = JsValue.arr [])
    ∧ (∀ u p call parse, call (suggestInstruction u p) = Except.ok (some "") →
        suggestPrompts u p call parse = JsValue.arr [])
    ∧ (∀ u p call parse t v, t ≠ "" → call (suggestInstruction u p) = Except.ok (some t) →
        parse t = Except.ok v →
        suggestPrompts u p call parse = v) := by
  refine ⟨?_, ?_, ?_, ?_, ?_, ?_⟩
  · intro u u' p p' call parse hu hp
    have : suggestInstruction u p = suggestInstruction u' p' := by
      simp only [suggestInstruction, String.take_eq]
      rw [hu, hp]
    simp only [suggestPrompts, this]
  · intro u p call parse e h
    simp [suggestPrompts, h]
  · intro u p call parse t e ht hc hp
    simp [suggestPrompts, hc, ht, hp]
  · intro u p call parse h
    simp [suggestPrompts, h]
  · intro u p call parse h
    simp [suggestPrompts, h]
  · intro u p call parse t v ht hc hp
    simp [suggestPrompts, hc, ht, hp]

/-- Witness for C5 (amended) at a concrete input: the call throws and
the literal three-item fallback is returned. -/
theorem suggestPrompts_spec_witness :
    suggestPrompts "a person" "a watch" (fun _ => Except.error "quota")
        (fun _ => Except.error "unreachable")
      = JsValue.arr fallbackSuggestions :=
  suggestPrompts_spec.2.1 "a person" "a watch" (fun _ => Except.error "quota")
    (fun _ => Except.error "unreachable") "quota" rfl

/-- Claim C2: the liked-prompt history is appended chronologically by
`handleFeedback` (liking prompts "p1", "p2", "p3" in that order yields
["p1", "p2", "p3"]), yet the style-preference line of the next
generation embeds `likedPrompts[0]` — the OLDEST entry "p1", not the
most recent "p3" — contradicting the source's own comment "Only use
the most recent liked style". -/
theorem stylePreference_uses_oldest :
    (handleFeedback (handleFeedback (handleFeedback
        ⟨[⟨"1", "u1", "p1", GenerationMode.COMBINED, none, 1, none⟩,
          ⟨"2", "u2", "p2", GenerationMode.COMBINED, none, 2, none⟩,
          ⟨"3", "u3", "p3", GenerationMode.COMBINED, none, 3, none⟩], []⟩
        "1" Feedback.like) "2" Feedback.like) "3" Feedback.like).likedPrompts
      = ["p1", "p2", "p3"]
    ∧ (generateParts "idea" GenerationMode.USER_ONLY none [] ["p1", "p2", "p3"]).tailChunks
      = ["\nTASK: Generate a high-quality photograph based on: \"idea\"\n",
         "STYLE PREFERENCE: p1.\n",
         "REQUIREMENTS: Photorealistic, 8k resolution, cinematic lighting. Seamlessly integrate the references provided."] := by
  constructor
  · rfl
  · rfl

/-- Claim C10: `handleFeedback` keeps `likedPrompts` duplicate-free —
a like appends the image's prompt only when absent, a dislike removes
every occurrence — and rewrites the gallery entry's feedback field to
the given type. -/
theorem handleFeedback_spec (st : FeedState) (id : String) (ty : Feedback) :
    (st.likedPrompts.Nodup → (handleFeedback st id ty).likedPrompts.Nodup)
    ∧ (st.gallery.find? (fun g => g.id == id) = none → handleFeedback st id ty = st)
    ∧ (∀ img, st.gallery.find? (fun g => g.id == id) = some img →
        ((ty = Feedback.like → img.prompt ∈ st.likedPrompts →
            (handleFeedback st id ty).likedPrompts = st.likedPrompts)
        ∧ (ty = Feedback.like → img.prompt ∉ st.likedPrompts →
            (handleFeedback st id ty).likedPrompts = st.likedPrompts ++ [img.prompt])
        ∧ (ty = Feedback.dislike →
            (handleFeedback st id ty).likedPrompts
              = st.likedPrompts.filter (fun p => p != img.prompt)
            ∧ img.prompt ∉ (handleFeedback st id ty).likedPrompts)
        ∧ (handleFeedback st id ty).gallery
            = st.gallery.map (fun g =>
                if g.id == id then { img with feedback := some ty } else g))) := by
  refine ⟨?_, ?_, ?_⟩
  · intro hnd
    unfold handleFeedback
    cases hfind : st.gallery.find? (fun g => g.id == id) with
    | none => exact hnd
    | some img =>
      simp only
      by_cases hlike : ty = Feedback.like ∧ img.prompt ∉ st.likedPrompts
      · rw [if_pos hlike]
        rw [List.nodup_append]
        exact ⟨hnd, List.nodup_singleton _, by
          intro a ha hb
          have : a = img.prompt := by simpa using hb
          exact hlike.2 (this ▸ ha)⟩
      · rw [if_neg hlike]
        by_cases hdis : ty = Feedback.dislike
        · rw [if_pos hdis]
          exact hnd.filter _
        · rw [if_neg hdis]
          exact hnd
  · intro hfind
    unfold handleFeedback
    rw [hfind]
  · intro img hfind
    refine ⟨?_, ?_, ?_, ?_⟩
    · intro hty hmem
      unfold handleFeedback
      rw [hfind]
      simp only
      rw [if_neg (by simp [hmem]), if_neg (by simp [hty])]
    · intro hty hmem
      unfold handleFeedback
      rw [hfind]
      simp only
      rw [if_pos ⟨hty, hmem⟩]
    · intro hty
      subst hty
      constructor
      · unfold handleFeedback
        rw [hfind]
        simp only
        rw [if_neg (by simp)]
        simp
      · unfold handleFeedback
        rw [hfind]
        simp only
        rw [if_neg (by simp)]
        simp
    · unfold handleFeedback
      rw [hfind]

/-- Witness for C10 at a concrete state: disliking removes both stored
occurrences of the image's prompt and marks the gallery entry. -/
theorem handleFeedback_spec_witness :
    (handleFeedback
        ⟨[⟨"7", "u", "sunset", GenerationMode.COMBINED, none, 5, none⟩],
          ["sunset", "forest", "sunset"]⟩
        "7" Feedback.dislike).likedPrompts = ["forest"]
    ∧ (handleFeedback
        ⟨[⟨"7", "u", "sunset", GenerationMode.COMBINED, none, 5, none⟩],
          ["sunset", "forest", "sunset"]⟩
        "7" Feedback.dislike).gallery
      = [⟨"7", "u", "sunset", GenerationMode.COMBINED, none, 5, some Feedback.dislike⟩] := by
  have h := (handleFeedback_spec
      ⟨[⟨"7", "u", "sunset", GenerationMode.COMBINED, none, 5, none⟩],
        ["sunset", "forest", "sunset"]⟩
      "7" Feedback.dislike).2.2
      ⟨"7", "u", "sunset", GenerationMode.COMBINED, none, 5, none⟩ rfl
  refine ⟨?_, ?_⟩
  · rw [(h.2.2.1 rfl).1]
    decide
  · rw [h.2.2.2]
    decide

/-!
## Helper lemmas about the prompt assembly
-/

lemma generateParts_imageParts (prompt : String) (mode : GenerationMode)
    (user : Option EntityProfile) (products : List EntityProfile) (liked : List String) :
    (generateParts prompt mode user products liked).imageParts
      = (userEntry mode user).1
        ++ (if (mode = GenerationMode.PRODUCT_ONLY ∨ mode = GenerationMode.COMBINED)
              ∧ 0 < products.length then
            productLoop (hasUserRef mode user) 0 products
          else ([], [])).1 := rfl

lemma generateParts_refLines (prompt : String) (mode : GenerationMode)
    (user : Option EntityProfile) (products : List EntityProfile) (liked : List String) :
    (generateParts prompt mode user products liked).refLines
      = (userEntry mode user).2
        ++ (if (mode = GenerationMode.PRODUCT_ONLY ∨ mode = GenerationMode.COMBINED)
              ∧ 0 < products.length then
            productLoop (hasUserRef mode user) 0 products
          else ([], [])).2 := rfl

lemma productLoop_nil (h : Bool) (i : Nat) : productLoop h i [] = ([], []) := rfl

lemma productLoop_cons (h : Bool) (i : Nat) (p : EntityProfile) (ps : List EntityProfile) :
    productLoop h i (p :: ps)
      = ((productEntry h i p).1 ++ (productLoop h (i + 1) ps).1,
         (productEntry h i p).2 ++ (productLoop h (i + 1) ps).2) := rfl

lemma userEntry_none (mode : GenerationMode) : userEntry mode none = ([], []) := rfl

lemma userEntry_product_only (user : Option EntityProfile) :
    userEntry GenerationMode.PRODUCT_ONLY user = ([], []) := by
  cases user with
  | none => rfl
  | some u =>
    unfold userEntry
    dsimp only
    rw [if_neg]
    rintro ⟨hm | hm, -⟩ <;> exact GenerationMode.noConfusion hm

lemma userEntry_no_images (mode : GenerationMode) (u : EntityProfile)
    (h : ¬ 0 < u.images.length) : userEntry mode (some u) = ([], []) := by
  unfold userEntry
  dsimp only
  rw [if_neg]
  exact fun hc => h hc.2

lemma userEntry_attach (mode : GenerationMode) (u : EntityProfile)
    (hm : mode = GenerationMode.USER_ONLY ∨ mode = GenerationMode.COMBINED)
    (h0 : 0 < u.images.length) (hb : stripDataUri (u.images.headD "") ≠ "") :
    userEntry mode (some u) = ([stripDataUri (u.images.headD "")], [userRefLine]) := by
  unfold userEntry
  dsimp only
  rw [if_pos ⟨hm, h0⟩]
  simp only [ne_eq, ite_not]
  rw [if_neg hb]

lemma productEntry_attach (h : Bool) (i : Nat) (p : EntityProfile)
    (h0 : 0 < p.images.length) (hb : stripDataUri (p.images.headD "") ≠ "") :
    productEntry h i p
      = ([stripDataUri (p.images.headD "")],
         [productLine (if h then i + 2 else i + 1) p.name]) := by
  unfold productEntry
  rw [if_pos h0]
  simp only [ne_eq, ite_not]
  rw [if_neg hb]

lemma hasUserRef_none (mode : GenerationMode) : hasUserRef mode none = false := by
  cases mode <;> rfl

lemma hasUserRef_product_only (user : Option EntityProfile) :
    hasUserRef GenerationMode.PRODUCT_ONLY user = false := by
  cases user <;> rfl

lemma hasUserRef_user_only (user : Option EntityProfile) :
    hasUserRef GenerationMode.USER_ONLY user = false := by
  cases user <;> rfl

lemma hasUserRef_combined (u : EntityProfile) :
    hasUserRef GenerationMode.COMBINED (some u) = decide (0 < u.images.length) := rfl

lemma userEntry_length (mode : GenerationMode) (user : Option EntityProfile) :
    ((userEntry mode user).1).length = ((userEntry mode user).2).length := by
  unfold userEntry
  cases user with
  | none => rfl
  | some u =>
    dsimp only
    split
    · split <;> rfl
    · rfl

lemma productEntry_no_images (h : Bool) (i : Nat) (p : EntityProfile)
    (h0 : ¬ 0 < p.images.length) : productEntry h i p = ([], []) := by
  unfold productEntry
  rw [if_neg h0]

lemma productEntry_empty_payload (h : Bool) (i : Nat) (p : EntityProfile)
    (h0 : 0 < p.images.length) (hb : stripDataUri (p.images.headD "") = "") :
    productEntry h i p = ([], []) := by
  unfold productEntry
  rw [if_pos h0]
  simp only [ne_eq, ite_not]
  rw [if_pos hb]

lemma productEntry_length (h : Bool) (i : Nat) (p : EntityProfile) :
    ((productEntry h i p).1).length = ((productEntry h i p).2).length := by
  by_cases h0 : 0 < p.images.length
  · by_cases hb : stripDataUri (p.images.headD "") = ""
    · rw [productEntry_empty_payload h i p h0 hb]
    · rw [productEntry_attach h i p h0 hb]
      rfl
  · rw [productEntry_no_images h i p h0]

lemma productLoop_length (h : Bool) :
    ∀ (ps : List EntityProfile) (i : Nat),
      ((productLoop h i ps).1).length = ((productLoop h i ps).2).length := by
  intro ps
  induction ps with
  | nil => intro i; rfl
  | cons p ps ih =>
    intro i
    rw [productLoop_cons]
    simp only [List.length_append]
    rw [productEntry_length, ih]

lemma productLoop_lines_get? (h : Bool) :
    ∀ (ps : List EntityProfile) (k n : Nat),
      (∀ p ∈ ps, 0 < p.images.length ∧ stripDataUri (p.images.headD "") ≠ "") →
      ((productLoop h k ps).2).get? n
        = (ps.get? n).map
            (fun p => productLine (if h then k + n + 2 else k + n + 1) p.name) := by
  intro ps
  induction ps with
  | nil => intro k n _; rfl
  | cons p ps ih =>
    intro k n hall
    have hp := hall p (by simp)
    rw [productLoop_cons, productEntry_attach h k p hp.1 hp.2]
    cases n with
    | zero => simp
    | succ n =>
      have hrest : ∀ q ∈ ps, 0 < q.images.length ∧ stripDataUri (q.images.headD "") ≠ "" :=
        fun q hq => hall q (by simp [hq])
      have e1 : k + 1 + n = k + (n + 1) := by omega
      simp only [List.singleton_append, List.get?_cons_succ]
      rw [ih (k + 1) n hrest]
      simp only [e1]

/-- Splitting a product reference line after its label. -/
lemma productLine_split (k : Nat) (name : String) :
    productLine k name
      = "[REF_" ++ toString k ++ "] is "
          ++ ("Product: " ++ name ++ ". Maintain its look.\n") := by
  unfold productLine
  rw [show ("] is Product: " : String) = "] is " ++ "Product: " from rfl]
  simp only [String.append_assoc]

lemma generateParts_length (prompt : String) (mode : GenerationMode)
    (user : Option EntityProfile) (products : List EntityProfile) (liked : List String) :
    (generateParts prompt mode user products liked).imageParts.length
      = (generateParts prompt mode user products liked).refLines.length := by
  rw [generateParts_imageParts, generateParts_refLines]
  simp only [List.length_append]
  rw [userEntry_length]
  congr 1
  split
  · exact productLoop_length _ products 0
  · rfl

lemma productLoop_labels (h : Bool) (products : List EntityProfile) (n : Nat)
    (hprod : ∀ p ∈ products, 0 < p.images.length ∧ stripDataUri (p.images.headD "") ≠ "")
    (hn : n < ((productLoop h 0 products).2).length) :
    ∃ rest, ((productLoop h 0 products).2).get? n
      = some ("[REF_" ++ toString (if h then n + 2 else n + 1) ++ "] is " ++ rest) := by
  have hmap := productLoop_lines_get? h products 0 n hprod
  obtain ⟨p, hp⟩ : ∃ p, products.get? n = some p := by
    cases hpn : products.get? n with
    | none =>
      rw [hpn] at hmap
      simp only [Option.map_none'] at hmap
      rw [List.get?_eq_none] at hmap
      omega
    | some p => exact ⟨p, rfl⟩
  refine ⟨"Product: " ++ p.name ++ ". Maintain its look.\n", ?_⟩
  rw [hmap, hp]
  simp only [Option.map_some']
  congr 1
  cases h with
  | false =>
    have e1 : (if (false : Bool) then 0 + n + 2 else 0 + n + 1) = n + 1 := by simp
    have e2 : (if (false : Bool) then n + 2 else n + 1) = n + 1 := by simp
    rw [e1, e2]
    exact productLine_split (n + 1) p.name
  | true =>
    have e1 : (if (true : Bool) then 0 + n + 2 else 0 + n + 1) = n + 2 := by simp
    have e2 : (if (true : Bool) then n + 2 else n + 1) = n + 2 := by simp
    rw [e1, e2]
    exact productLine_split (n + 2) p.name

lemma labels_no_user (prompt : String) (mode : GenerationMode)
    (user : Option EntityProfile) (products : List EntityProfile) (liked : List String)
    (hu : userEntry mode user = ([], [])) (hh : hasUserRef mode user = false)
    (hprod : ∀ p ∈ products, 0 < p.images.length ∧ stripDataUri (p.images.headD "") ≠ "") :
    ∀ n, n < (generateParts prompt mode user products liked).refLines.length →
      ∃ rest, (generateParts prompt mode user products liked).refLines.get? n
        = some ("[REF_" ++ toString (n + 1) ++ "] is " ++ rest) := by
  intro n hn
  rw [generateParts_refLines, hu, hh] at hn ⊢
  by_cases hc : (mode = GenerationMode.PRODUCT_ONLY ∨ mode = GenerationMode.COMBINED)
      ∧ 0 < products.length
  · rw [if_pos hc] at hn ⊢
    simp only [List.nil_append] at hn ⊢
    obtain ⟨rest, hr⟩ := productLoop_labels false products n hprod hn
    refine ⟨rest, ?_⟩
    rw [hr]
    have e : (if (false : Bool) then n + 2 else n + 1) = n + 1 := by simp
    rw [e]
  · rw [if_neg hc] at hn
    simp at hn

/-- Claim C1 (amended): in every assembled generation request, the
instruction lines appended while attaching reference images always
match the attached image parts in count and order; and whenever every
selected product has at least one image with a non-empty cleaned
payload, and (when a user profile with images is supplied) the user's
first cleaned payload is non-empty, the `n`-th attached image part is
bound by label `[REF_n]` (1-based).  Without those provisos, skipped
candidates leave gaps in the label numbering (see the
counterexample). -/
theorem generateParts_label_invariant (prompt : String) (mode : GenerationMode)
    (user : Option EntityProfile) (products : List EntityProfile) (liked : List String) :
    (generateParts prompt mode user products liked).imageParts.length
      = (generateParts prompt mode user products liked).refLines.length
    ∧ ((∀ p ∈ products, 0 < p.images.length ∧ stripDataUri (p.images.headD "") ≠ "") →
       (∀ u, user = some u → 0 < u.images.length →
          stripDataUri (u.images.headD "") ≠ "") →
       ∀ n, n < (generateParts prompt mode user products liked).refLines.length →
         ∃ rest, (generateParts prompt mode user products liked).refLines.get? n
           = some ("[REF_" ++ toString (n + 1) ++ "] is " ++ rest)) := by
  constructor
  · exact generateParts_length prompt mode user products liked
  · intro hprod huser n
    cases mode with
    | USER_ONLY =>
      cases user with
      | none =>
        exact labels_no_user prompt _ none products liked (userEntry_none _)
          (hasUserRef_none _) hprod n
      | some u =>
        by_cases h0 : 0 < u.images.length
        · intro hn
          rw [generateParts_refLines,
            userEntry_attach GenerationMode.USER_ONLY u (Or.inl rfl) h0 (huser u rfl h0),
            if_neg (by simp)] at hn ⊢
          simp only [List.append_nil] at hn ⊢
          have hn0 : n = 0 := by simp at hn; omega
          subst hn0
          exact ⟨"the Main Subject. Maintain their likeness accurately.\n", by decide⟩
        · exact labels_no_user prompt _ (some u) products liked
            (userEntry_no_images _ u h0) (hasUserRef_user_only _) hprod n
    | PRODUCT_ONLY =>
      exact labels_no_user prompt _ user products liked (userEntry_product_only user)
        (hasUserRef_product_only user) hprod n
    | COMBINED =>
      cases user with
      | none =>
        exact labels_no_user prompt _ none products liked (userEntry_none _)
          (hasUserRef_none _) hprod n
      | some u =>
        by_cases h0 : 0 < u.images.length
        · intro hn
          have hhu : hasUserRef GenerationMode.COMBINED (some u) = true := by
            rw [hasUserRef_combined]
            simpa using h0
          rw [generateParts_refLines,
            userEntry_attach GenerationMode.COMBINED u (Or.inr rfl) h0 (huser u rfl h0),
            hhu] at hn ⊢
          by_cases hc : (GenerationMode.COMBINED = GenerationMode.PRODUCT_ONLY
              ∨ GenerationMode.COMBINED = GenerationMode.COMBINED) ∧ 0 < products.length
          · rw [if_pos hc] at hn ⊢
            cases n with
            | zero =>
              refine ⟨"the Main Subject. Maintain their likeness accurately.\n", ?_⟩
              simp only [List.singleton_append, List.get?_cons_zero]
              decide
            | succ m =>
              simp only [List.singleton_append, List.get?_cons_succ, List.length_cons] at hn ⊢
              have hm : m < ((productLoop true 0 products).2).length := by omega
              obtain ⟨rest, hr⟩ := productLoop_labels true products m hprod hm
              refine ⟨rest, ?_⟩
              rw [hr]
              have e : (if (true : Bool) then m + 2 else m + 1) = m + 1 + 1 := by simp
              rw [e]
          · rw [if_neg hc] at hn ⊢
            simp only [List.append_nil] at hn ⊢
            have hn0 : n = 0 := by simp at hn; omega
            subst hn0
            exact ⟨"the Main Subject. Maintain their likeness accurately.\n", by decide⟩
        · exact labels_no_user prompt _ (some u) products liked
            (userEntry_no_images _ u h0)
            (by rw [hasUserRef_combined]; simpa using h0) hprod n

/-- Claim C1 (counterexample): in a `PRODUCT_ONLY` request whose first
selected product has an empty image list, one image part is attached
(for the second product) but its binding label is `[REF_2]` — the
first attached image part is not bound by `[REF_1]`, and label
`[REF_1]` is bound to no image. -/
theorem generateParts_label_invariant_cex :
    (generateParts "p" GenerationMode.PRODUCT_ONLY none
        [⟨"1", "P1", "", [], SubjectType.PRODUCT⟩,
         ⟨"2", "P2", "", ["b"], SubjectType.PRODUCT⟩] []).imageParts = ["b"]
    ∧ (generateParts "p" GenerationMode.PRODUCT_ONLY none
        [⟨"1", "P1", "", [], SubjectType.PRODUCT⟩,
         ⟨"2", "P2", "", ["b"], SubjectType.PRODUCT⟩] []).refLines
      = ["[REF_2] is Product: P2. Maintain its look.\n"] := by
  constructor <;> rfl

/-- Witness for C1 (amended) at a concrete input: a `COMBINED` request
with an attaching user and one attaching product; position 1 (0-based)
carries label `[REF_2]`. -/
theorem generateParts_label_invariant_witness :
    ∃ rest, (generateParts "p" GenerationMode.COMBINED
        (some ⟨"u", "Alex", "", ["x"], SubjectType.PERSON⟩)
        [⟨"1", "P1", "", ["a"], SubjectType.PRODUCT⟩] []).refLines.get? 1
      = some ("[REF_" ++ toString 2 ++ "] is " ++ rest) := by
  have h := (generateParts_label_invariant "p" GenerationMode.COMBINED
      (some ⟨"u", "Alex", "", ["x"], SubjectType.PERSON⟩)
      [⟨"1", "P1", "", ["a"], SubjectType.PRODUCT⟩] []).2
    (by
      intro p hp
      have : p = ⟨"1", "P1", "", ["a"], SubjectType.PRODUCT⟩ := by simpa using hp
      subst this
      exact ⟨by decide, by decide⟩)
    (by
      intro u hu h0
      cases hu
      decide)
    1 (by decide)
  exact h

/-- Claim C6: a `COMBINED` request with a user profile holding one
image and two selected products each holding one image, all cleaned
payloads non-empty, attaches exactly the three images in order and
emits exactly the three reference lines `[REF_1]` (user), `[REF_2]`
(first product), `[REF_3]` (second product). -/
theorem combined_three_labels (prompt uid uname udesc uimg pid1 n1 d1 i1 pid2 n2 d2 i2 : String)
    (liked : List String)
    (hu : stripDataUri uimg ≠ "") (h1 : stripDataUri i1 ≠ "") (h2 : stripDataUri i2 ≠ "") :
    (generateParts prompt GenerationMode.COMBINED
        (some ⟨uid, uname, udesc, [uimg], SubjectType.PERSON⟩)
        [⟨pid1, n1, d1, [i1], SubjectType.PRODUCT⟩,
         ⟨pid2, n2, d2, [i2], SubjectType.PRODUCT⟩] liked).imageParts
      = [stripDataUri uimg, stripDataUri i1, stripDataUri i2]
    ∧ (generateParts prompt GenerationMode.COMBINED
        (some ⟨uid, uname, udesc, [uimg], SubjectType.PERSON⟩)
        [⟨pid1, n1, d1, [i1], SubjectType.PRODUCT⟩,
         ⟨pid2, n2, d2, [i2], SubjectType.PRODUCT⟩] liked).refLines
      = [userRefLine, productLine 2 n1, productLine 3 n2] := by
  have hue := userEntry_attach GenerationMode.COMBINED
    ⟨uid, uname, udesc, [uimg], SubjectType.PERSON⟩ (Or.inr rfl) (by simp) hu
  have hp1 := productEntry_attach true 0 ⟨pid1, n1, d1, [i1], SubjectType.PRODUCT⟩ (by simp) h1
  have hp2 := productEntry_attach true 1 ⟨pid2, n2, d2, [i2], SubjectType.PRODUCT⟩ (by simp) h2
  constructor
  · rw [generateParts_imageParts, if_pos ⟨Or.inr rfl, by simp⟩]
    rw [show hasUserRef GenerationMode.COMBINED
        (some ⟨uid, uname, udesc, [uimg], SubjectType.PERSON⟩) = true from rfl]
    rw [productLoop_cons, productLoop_cons, productLoop_nil, hue, hp1, hp2]
    simp
  · rw [generateParts_refLines, if_pos ⟨Or.inr rfl, by simp⟩]
    rw [show hasUserRef GenerationMode.COMBINED
        (some ⟨uid, uname, udesc, [uimg], SubjectType.PERSON⟩) = true from rfl]
    rw [productLoop_cons, productLoop_cons, productLoop_nil, hue, hp1, hp2]
    simp

/-- Witness for C6 at a concrete input. -/
theorem combined_three_labels_witness :
    (generateParts "shot" GenerationMode.COMBINED
        (some ⟨"u", "Alex", "", ["ub"], SubjectType.PERSON⟩)
        [⟨"1", "Watch", "", ["a"], SubjectType.PRODUCT⟩,
         ⟨"2", "Bag", "", ["b"], SubjectType.PRODUCT⟩] []).refLines
      = [userRefLine, productLine 2 "Watch", productLine 3 "Bag"] :=
  (combined_three_labels "shot" "u" "Alex" "" "ub" "1" "Watch" "" "a" "2" "Bag" "" "b" []
    (by decide) (by decide) (by decide)).2

/-- Claim C7 (amended): a `PRODUCT_ONLY` request is entirely
independent of the user profile passed to `generateBrandVisual`, and
with two selected products — each with at least one image, the first
with a non-empty cleaned payload — its product reference labels start
at `[REF_1]`, with no user label present. -/
theorem product_only_labels :
    (∀ prompt user products liked,
        generateParts prompt GenerationMode.PRODUCT_ONLY user products liked
          = generateParts prompt GenerationMode.PRODUCT_ONLY none products liked)
    ∧ (∀ prompt user p1 p2 liked, 0 < p1.images.length → 0 < p2.images.length →
        stripDataUri (p1.images.headD "") ≠ "" →
        (generateParts prompt GenerationMode.PRODUCT_ONLY user [p1, p2] liked).refLines
          = productLine 1 p1.name ::
              (if stripDataUri (p2.images.headD "") = "" then []
               else [productLine 2 p2.name])) := by
  constructor
  · intro prompt user products liked
    unfold generateParts
    rw [userEntry_product_only, hasUserRef_product_only, userEntry_none, hasUserRef_none]
  · intro prompt user p1 p2 liked h01 h02 hb1
    rw [generateParts_refLines, userEntry_product_only, hasUserRef_product_only,
      if_pos ⟨Or.inl rfl, by simp⟩]
    rw [productLoop_cons, productLoop_cons, productLoop_nil,
      productEntry_attach false 0 p1 h01 hb1]
    by_cases hb2 : stripDataUri (p2.images.headD "") = ""
    · rw [productEntry_empty_payload false 1 p2 h02 hb2, if_pos hb2]
      simp
    · rw [productEntry_attach false 1 p2 h02 hb2, if_neg hb2]
      simp

/-- Claim C7 (counterexample): both selected products have at least
one image, but the first product's sole image is the data-URI-like
string "," whose cleaned payload is empty, so it is skipped and the
labels start at `[REF_2]`, not `[REF_1]`. -/
theorem product_only_labels_cex :
    (generateParts "p" GenerationMode.PRODUCT_ONLY
        (some ⟨"u", "Alex", "", ["x"], SubjectType.PERSON⟩)
        [⟨"1", "P1", "", [","], SubjectType.PRODUCT⟩,
         ⟨"2", "P2", "", ["b"], SubjectType.PRODUCT⟩] []).refLines
      = ["[REF_2] is Product: P2. Maintain its look.\n"]
    ∧ (0 < ([","] : List String).length ∧ 0 < (["b"] : List String).length) := by
  constructor
  · rfl
  · exact ⟨by decide, by decide⟩

/-- Witness for C7 (amended) at a concrete input: with a user profile
present, labels still start at `[REF_1]`. -/
theorem product_only_labels_witness :
    (generateParts "p" GenerationMode.PRODUCT_ONLY
        (some ⟨"u", "Alex", "", ["x"], SubjectType.PERSON⟩)
        [⟨"1", "P1", "", ["a"], SubjectType.PRODUCT⟩,
         ⟨"2", "P2", "", ["b"], SubjectType.PRODUCT⟩] []).refLines
      = [productLine 1 "P1", productLine 2 "P2"] := by
  have h := product_only_labels.2 "p" (some ⟨"u", "Alex", "", ["x"], SubjectType.PERSON⟩)
    ⟨"1", "P1", "", ["a"], SubjectType.PRODUCT⟩ ⟨"2", "P2", "", ["b"], SubjectType.PRODUCT⟩ []
    (by decide) (by decide) (by decide)
  rw [h, if_neg (by decide)]

end Mika
